import Mathlib

/-!
Verification of the pension-loss calculation engine in `streamlit_app.py`.

The engine is pure arithmetic over decimal numbers; we embed it over `ℚ`.
Definitions follow the source line by line:
* `get_ogden_subset` / `lookupMultiplier` — the demo Ogden table generator
  and the row lookup (lines 32-54 and 209-214);
* `simpleCalc` — the Simple (contributions) method (lines 167-172);
* `complexCalc` — the Complex (seven steps) method (lines 248-274);
* `chartComponents` — the final-award chart component values (lines 313-315);
* `generate_report` — the Word-report builder (lines 59-116), with the
  python-docx paragraph API modelled from the spec.
-/

namespace PensionLoss

/-- Gender selector, from the selectbox `["Male", "Female"]`. -/
inductive Gender where
  | Male : Gender
  | Female : Gender
deriving DecidableEq, Repr

/-- One row of the demo Ogden table: age at trial and the three
retirement-age columns. -/
structure OgdenRow where
  age : ℕ
  retire60 : ℚ
  retire65 : ℚ
  retire68 : ℚ
deriving DecidableEq, Repr

/-- The raw (pre-clamp) column values for a given age, from the list
comprehensions `base_60`, `base_65`, `base_68` in `get_ogden_subset`. -/
def ogdenRawRow (g : Gender) (x : ℕ) : OgdenRow :=
  match g with
  | .Male =>
      { age := x
        retire60 := 24.50 - 0.95 * ((x : ℚ) - 40)
        retire65 := 22.00 - 0.6 * ((x : ℚ) - 40)
        retire68 := 19.50 - 0.5 * ((x : ℚ) - 40) }
  | .Female =>
      { age := x
        retire60 := 26.00 - 0.90 * ((x : ℚ) - 40)
        retire65 := 23.50 - 0.55 * ((x : ℚ) - 40)
        retire68 := 21.00 - 0.5 * ((x : ℚ) - 40) }

/-- `df.applymap(lambda x: max(0.0, x))`: clamp every multiplier value of a
row to the zero floor (the age column is an integer index, untouched by the
clamp in any meaningful way since ages are 40-60). -/
def clampRow (r : OgdenRow) : OgdenRow :=
  { age := r.age
    retire60 := max 0 r.retire60
    retire65 := max 0 r.retire65
    retire68 := max 0 r.retire68 }

/-- `ages = list(range(40, 61))`. -/
def ogdenAges : List ℕ := (List.range 21).map (fun k => k + 40)

/-- `get_ogden_subset(gender)`: the demo Ogden table, one row per age 40-60,
with the zero-floor clamp applied. -/
def get_ogden_subset (g : Gender) : List OgdenRow :=
  ogdenAges.map (fun x => clampRow (ogdenRawRow g x))

/-- Select a retirement-age column of a row, mirroring
`target_col = f"Retire at {ret_age}"` with `ret_age` drawn from the
selectbox `[60, 65, 68]`. -/
def colValue (r : OgdenRow) (retAge : ℕ) : ℚ :=
  if retAge = 60 then r.retire60
  else if retAge = 65 then r.retire65
  else r.retire68

/-- The closed form of a clamped table entry, used to state exact-match
lookups. -/
def ogdenVal (g : Gender) (retAge : ℕ) (age : ℕ) : ℚ :=
  colValue (clampRow (ogdenRawRow g age)) retAge

/-- The lookup
`df_ogden.loc[df_ogden['Age at Trial'] == claimant_age, target_col].values[0]`
wrapped in `try/except IndexError`: the first row whose age matches, if any,
projected to the requested column; `none` models the `IndexError` path. -/
def lookupMultiplier (g : Gender) (claimant_age retAge : ℕ) : Option ℚ :=
  ((get_ogden_subset g).find? (fun r => r.age = claimant_age)).map
    (fun r => colValue r retAge)

/-- `found_in_table`: whether the lookup succeeded. -/
def found_in_table (g : Gender) (claimant_age retAge : ℕ) : Bool :=
  (lookupMultiplier g claimant_age retAge).isSome

/-- `auto_multiplier`: the looked-up value, or `0.0` on the `IndexError`
fallback path (the caller then enters the multiplier manually, with the
number-input defaulting to this value). -/
def auto_multiplier (g : Gender) (claimant_age retAge : ℕ) : ℚ :=
  (lookupMultiplier g claimant_age retAge).getD 0

/-- The marginal-tax-rate selectbox options `[0.20, 0.40, 0.45]` offered in
the sidebar: the only tax rates that can reach the engine. -/
def taxRateOptions : List ℚ := [0.20, 0.40, 0.45]

/-- Results of the Simple (contributions) method, lines 167-172 of the
source. -/
structure SimpleResult where
  annual_loss : ℚ
  net_total : ℚ
  taxable : ℚ
  gross_total : ℚ
deriving Repr

/-- Simple method:
`annual_loss = gross_salary * (contrib/100)`,
`net_total = annual_loss * period`, then the gross-up
`taxable = max(0, net_total - tax_free_remaining)`,
`gross_total = min(net_total, tax_free_remaining) + taxable / (1 - tax_rate)`. -/
def simpleCalc (gross_salary contrib period tax_free_remaining tax_rate : ℚ) :
    SimpleResult :=
  let annual_loss := gross_salary * (contrib / 100)
  let net_total := annual_loss * period
  let taxable := max 0 (net_total - tax_free_remaining)
  let gross_total := min net_total tax_free_remaining + taxable / (1 - tax_rate)
  { annual_loss := annual_loss
    net_total := net_total
    taxable := taxable
    gross_total := gross_total }

/-- Inputs to the Complex (seven steps) method, as read from the widgets.
`claimant_age` and `ret_age` are the integers of the age number-input and the
retirement-age selectbox; `withdrawal` is the Polkey slider percentage. -/
structure ComplexInputs where
  old_pension : ℚ
  accrued_pension : ℚ
  new_pension : ℚ
  claimant_age : ℤ
  ret_age : ℤ
  multiplier : ℚ
  withdrawal : ℚ
  old_lump : ℚ
  new_lump_future : ℚ
  new_lump_now : ℚ
  tax_free_remaining : ℚ
  tax_rate : ℚ
deriving Repr

/-- Every intermediate and final figure of the Complex method,
lines 193 and 248-274 of the source. -/
structure ComplexResult where
  net_annual_loss : ℚ
  yrs_to_retire : ℤ
  ls_discount_factor : ℚ
  pv_old_lump : ℚ
  pv_new_future : ℚ
  pv_new_total : ℚ
  lump_val : ℚ
  cap_val : ℚ
  total_raw : ℚ
  deduction : ℚ
  net_total : ℚ
  taxable : ℚ
  gross_total : ℚ
  tax_element : ℚ
deriving Repr

/-- The Complex calculation engine, transcribed line by line:
`net_annual_loss = old_pension - (accrued_pension + new_pension)`;
`yrs_to_retire = ret_age - claimant_age`;
`ls_discount_factor = (1 + -0.0025) ** -yrs_to_retire`;
`pv_old_lump = old_lump * ls_discount_factor`;
`pv_new_future = new_lump_future * ls_discount_factor`;
`pv_new_total = pv_new_future + new_lump_now`;
`lump_val = pv_old_lump - pv_new_total`;
`cap_val = net_annual_loss * multiplier`;
`total_raw = cap_val + lump_val`;
`deduction = total_raw * (withdrawal/100)`;
`net_total = total_raw - deduction`;
`taxable = max(0, net_total - tax_free_remaining)`;
`gross_total = min(net_total, tax_free_remaining) + taxable / (1 - tax_rate)`;
`tax_element = gross_total - net_total`. -/
def complexCalc (i : ComplexInputs) : ComplexResult :=
  let net_annual_loss := i.old_pension - (i.accrued_pension + i.new_pension)
  let yrs_to_retire := i.ret_age - i.claimant_age
  let ls_discount_factor : ℚ := (1 + -0.0025) ^ (-yrs_to_retire)
  let pv_old_lump := i.old_lump * ls_discount_factor
  let pv_new_future := i.new_lump_future * ls_discount_factor
  let pv_new_total := pv_new_future + i.new_lump_now
  let lump_val := pv_old_lump - pv_new_total
  let cap_val := net_annual_loss * i.multiplier
  let total_raw := cap_val + lump_val
  let deduction := total_raw * (i.withdrawal / 100)
  let net_total := total_raw - deduction
  let taxable := max 0 (net_total - i.tax_free_remaining)
  let gross_total := min net_total i.tax_free_remaining + taxable / (1 - i.tax_rate)
  let tax_element := gross_total - net_total
  { net_annual_loss := net_annual_loss
    yrs_to_retire := yrs_to_retire
    ls_discount_factor := ls_discount_factor
    pv_old_lump := pv_old_lump
    pv_new_future := pv_new_future
    pv_new_total := pv_new_total
    lump_val := lump_val
    cap_val := cap_val
    total_raw := total_raw
    deduction := deduction
    net_total := net_total
    taxable := taxable
    gross_total := gross_total
    tax_element := tax_element }

/-- The three final-award chart component values
`[cap_val * (1-withdrawal/100), lump_val * (1-withdrawal/100), tax_element]`
from the `comp_data` DataFrame (lines 313-315). -/
def chartComponents (i : ComplexInputs) : List ℚ :=
  let r := complexCalc i
  [r.cap_val * (1 - i.withdrawal / 100),
   r.lump_val * (1 - i.withdrawal / 100),
   r.tax_element]

/-- Modelled from the spec: the python-docx paragraph object used by the
report generator supports a standard append-and-style operation (`add_run`)
for adding styled text runs; no method named `add_runner` exists on it. The
library itself is not part of this repository, so its method surface is taken
from the spec's description of text-styling assembly. -/
def paragraphMethods : List String := ["add_run", "add_comment", "clear", "insert_paragraph_before"]

/-- Invoke a named method on a paragraph object: calling a method that the
paragraph does not expose raises `AttributeError` (Python attribute lookup
failure), modelled as `Except.error`. -/
def callParagraphMethod (m : String) : Except String Unit :=
  if m ∈ paragraphMethods then Except.ok () else
    Except.error ("AttributeError: " ++ m)

/-- The report payload: the `r_data` / `r_res` dictionaries are flat records
of primitive values; for the report generator only their rendered strings
matter, so a payload is a list of key/value lines. -/
structure ReportPayload where
  data_lines : List String
  results_lines : List String
deriving Repr

/-- `generate_report(data, results, method)` as a document-line builder.
Mirrors the source's order of operations: heading, date, the "Based on"
paragraph, then `p.add_runner(...)` — an attribute lookup on the paragraph
that precedes every method-dependent branch — then the inputs table, the
calculation detail (branching on the method) and the award section. The
`add_runner` call is kept exactly where the source has it. -/
def generate_report (payload : ReportPayload) (method : String) :
    Except String (List String) := do
  let head := ["Judicial Pension Loss Calculation", "Date: today"]
  let principles :=
    ["Based on: Principles for Compensating Pension Loss (4th Ed, 2021) & Ogden Tables 8th Ed."]
  _ ← callParagraphMethod "add_runner"
  let inputs := "1. Inputs & Assumptions" :: payload.data_lines
  let detail :=
    if method = "Complex" then "2. Calculation Detail" :: payload.results_lines
    else ["2. Calculation Detail", "Total Net Loss"]
  let award := ["3. Grossed Up Award", "Total Award Payable"]
  return head ++ principles ++ inputs ++ detail ++ award

/-! ### Helper lemmas -/

@[simp]
theorem age_clampRow_ogdenRawRow (g : Gender) (x : ℕ) :
    (clampRow (ogdenRawRow g x)).age = x := by
  cases g <;> rfl

/-- When the net total is at most the tax-free allowance the shared gross-up
expression collapses to the net total itself. -/
theorem grossUp_id_of_le (net allow rate : ℚ) (h : net ≤ allow) :
    min net allow + (max 0 (net - allow)) / (1 - rate) = net := by
  rw [max_eq_left (sub_nonpos.mpr h), min_eq_left h, zero_div, add_zero]

/-- The generated age column is exactly the band 40-60. -/
theorem mem_ogdenAges (a : ℕ) : a ∈ ogdenAges ↔ 40 ≤ a ∧ a ≤ 60 := by
  simp only [ogdenAges, List.mem_map, List.mem_range]
  constructor
  · rintro ⟨k, hk, rfl⟩; omega
  · rintro ⟨h1, h2⟩; exact ⟨a - 40, by omega, by omega⟩

/-- Searching a list of naturals for a given member finds that member. -/
theorem find?_eq_self {l : List ℕ} {a : ℕ} (h : a ∈ l) :
    l.find? (fun x => x = a) = some a := by
  induction l with
  | nil => cases h
  | cons b t ih =>
      by_cases hb : b = a
      · subst hb; simp [List.find?]
      · rw [List.find?]
        simp only [hb, decide_eq_true_eq, if_neg]
        have ht : a ∈ t := by
          rcases List.mem_cons.mp h with h1 | h1
          · exact absurd h1.symm hb
          · exact h1
        simpa [hb] using ih ht

/-- Inside the 40-60 band the table lookup returns the exact-match clamped
entry for that age and retirement-age column. -/
theorem lookup_in_band (g : Gender) (age retAge : ℕ)
    (h1 : 40 ≤ age) (h2 : age ≤ 60) :
    lookupMultiplier g age retAge = some (ogdenVal g retAge age) := by
  unfold lookupMultiplier get_ogden_subset
  rw [List.find?_map]
  have hmem : age ∈ ogdenAges := (mem_ogdenAges age).mpr ⟨h1, h2⟩
  have hfind : (ogdenAges.find? ((fun r => decide (r.age = age)) ∘
      fun x => clampRow (ogdenRawRow g x))) = some age := by
    have heq : ((fun r => decide (r.age = age)) ∘
        fun x => clampRow (ogdenRawRow g x)) = fun x => decide (x = age) := by
      funext x; simp
    rw [heq]
    exact find?_eq_self hmem
  simp only [Function.comp] at hfind ⊢
  rw [hfind]
  rfl

/-- Outside the 40-60 band the lookup hits the `IndexError` path and yields
`none`. -/
theorem lookup_out_of_band (g : Gender) (age retAge : ℕ)
    (h : age < 40 ∨ 60 < age) :
    lookupMultiplier g age retAge = none := by
  unfold lookupMultiplier get_ogden_subset
  rw [List.find?_map]
  have hfind : (ogdenAges.find? ((fun r => decide (r.age = age)) ∘
      fun x => clampRow (ogdenRawRow g x))) = none := by
    rw [List.find?_eq_none]
    intro x hx
    have := (mem_ogdenAges x).mp hx
    simp only [Function.comp, age_clampRow_ogdenRawRow, decide_eq_true_eq]
    omega
  simp only [Function.comp] at hfind ⊢
  rw [hfind]
  rfl

/-- Clamping a row then selecting a column is the zero-floor of selecting
the column of the raw row. -/
theorem colValue_clampRow (r : OgdenRow) (retAge : ℕ) :
    colValue (clampRow r) retAge = max 0 (colValue r retAge) := by
  unfold colValue clampRow
  split_ifs <;> rfl

/-- Each raw (pre-clamp) column is non-increasing in age: the linear decay
has a positive per-year step in every gender and column. -/
theorem colValue_raw_anti (g : Gender) (retAge : ℕ) (a1 a2 : ℕ) (h : a1 ≤ a2) :
    colValue (ogdenRawRow g a2) retAge ≤ colValue (ogdenRawRow g a1) retAge := by
  have hc : (a1 : ℚ) ≤ (a2 : ℚ) := by exact_mod_cast h
  cases g <;> unfold colValue ogdenRawRow <;> split_ifs <;> simp only <;> linarith

/-! ### Claim theorems -/

/-- C1: For every net_total, tax_free_allowance and tax_rate with
tax_rate < 1, the gross-up step of both the Simple and the Complex mode
computes `taxable_portion = max 0 (net_total - allowance)`,
`gross_total = min net_total allowance + taxable_portion / (1 - tax_rate)`
and `tax_element = gross_total - net_total`; consequently
`gross_total - tax_element = net_total`. -/
theorem claim_C1_grossup (s c p allow rate : ℚ) (hr : rate < 1)
    (i : ComplexInputs) (hi : i.tax_rate < 1) :
    ((simpleCalc s c p allow rate).taxable
        = max 0 ((simpleCalc s c p allow rate).net_total - allow) ∧
      (simpleCalc s c p allow rate).gross_total
        = min (simpleCalc s c p allow rate).net_total allow
            + (simpleCalc s c p allow rate).taxable / (1 - rate) ∧
      (simpleCalc s c p allow rate).gross_total
          - ((simpleCalc s c p allow rate).gross_total
              - (simpleCalc s c p allow rate).net_total)
        = (simpleCalc s c p allow rate).net_total) ∧
    ((complexCalc i).taxable
        = max 0 ((complexCalc i).net_total - i.tax_free_remaining) ∧
      (complexCalc i).gross_total
        = min (complexCalc i).net_total i.tax_free_remaining
            + (complexCalc i).taxable / (1 - i.tax_rate) ∧
      (complexCalc i).tax_element
        = (complexCalc i).gross_total - (complexCalc i).net_total ∧
      (complexCalc i).gross_total - (complexCalc i).tax_element
        = (complexCalc i).net_total) := by
  refine ⟨⟨rfl, rfl, by ring⟩, ⟨rfl, rfl, rfl, ?_⟩⟩
  simp [complexCalc]

/-- Witness for C1 at concrete inputs with tax rate 40%. -/
theorem claim_C1_grossup_witness :
    (simpleCalc 30000 5 1 0 0.40).gross_total
        - ((simpleCalc 30000 5 1 0 0.40).gross_total
            - (simpleCalc 30000 5 1 0 0.40).net_total)
      = (simpleCalc 30000 5 1 0 0.40).net_total ∧
    (complexCalc ⟨20000, 10000, 5000, 50, 65, 22, 5, 60000, 20000, 10000, 0,
        0.40⟩).gross_total
        - (complexCalc ⟨20000, 10000, 5000, 50, 65, 22, 5, 60000, 20000,
            10000, 0, 0.40⟩).tax_element
      = (complexCalc ⟨20000, 10000, 5000, 50, 65, 22, 5, 60000, 20000, 10000,
          0, 0.40⟩).net_total := by
  have h := claim_C1_grossup 30000 5 1 0 0.40 (by norm_num)
    ⟨20000, 10000, 5000, 50, 65, 22, 5, 60000, 20000, 10000, 0, 0.40⟩
    (by norm_num)
  exact ⟨h.1.2.2, h.2.2.2.2⟩

/-- C2: For every input, the Complex-mode discount factor equals
`(1 - 0.0025) ^ (-(ret_age - claimant_age))`, the exponent being the raw
(unclamped) years-to-retirement, and the factor exceeds 1 whenever
years-to-retirement is positive. -/
theorem claim_C2_discount_factor (i : ComplexInputs) :
    (complexCalc i).yrs_to_retire = i.ret_age - i.claimant_age ∧
    (complexCalc i).ls_discount_factor
      = (1 - 0.0025 : ℚ) ^ (-(i.ret_age - i.claimant_age)) ∧
    (0 < i.ret_age - i.claimant_age → 1 < (complexCalc i).ls_discount_factor) := by
  refine ⟨rfl, by norm_num [complexCalc], fun hy => ?_⟩
  show (1:ℚ) < (1 + -0.0025) ^ (-(i.ret_age - i.claimant_age))
  have h0 : (0:ℚ) < 1 + -0.0025 := by norm_num
  have h1 : (1 + -0.0025 : ℚ) < 1 := by norm_num
  exact one_lt_zpow_of_neg₀ h0 h1 (by omega)

/-- Witness for C2 at years-to-retirement 15 (age 50, retirement at 65). -/
theorem claim_C2_discount_factor_witness :
    1 < (complexCalc ⟨20000, 10000, 5000, 50, 65, 22, 5, 60000, 20000, 10000,
        0, 0.40⟩).ls_discount_factor := by
  exact (claim_C2_discount_factor
    ⟨20000, 10000, 5000, 50, 65, 22, 5, 60000, 20000, 10000, 0, 0.40⟩).2.2
    (by norm_num)

/-- C3: In Complex mode the present value of the old lump sum is the future
amount times the discount factor; the new-scenario present value discounts
only the future portion and adds the already-received portion undiscounted;
and the lump-sum loss `pv_old_lump - pv_new_total` flows into `total_raw`
unchanged, with no clamping. -/
theorem claim_C3_lump_sums (i : ComplexInputs) :
    (complexCalc i).pv_old_lump
      = i.old_lump * (complexCalc i).ls_discount_factor ∧
    (complexCalc i).pv_new_total
      = i.new_lump_future * (complexCalc i).ls_discount_factor
          + i.new_lump_now ∧
    (complexCalc i).lump_val
      = (complexCalc i).pv_old_lump - (complexCalc i).pv_new_total ∧
    (complexCalc i).total_raw
      = (complexCalc i).cap_val + (complexCalc i).lump_val :=
  ⟨rfl, rfl, rfl, rfl⟩

/-- C4: In Complex mode the withdrawal deduction composes linearly —
`net_total = total_raw * (1 - withdrawal/100)` — and the three chart
components (capital and lump-sum loss each net of withdrawal, plus the tax
element) sum exactly to `gross_total`. -/
theorem claim_C4_linear_composition (i : ComplexInputs)
    (h0 : 0 ≤ i.withdrawal) (h1 : i.withdrawal ≤ 100) :
    (complexCalc i).net_total
      = (complexCalc i).total_raw * (1 - i.withdrawal / 100) ∧
    (chartComponents i).sum = (complexCalc i).gross_total := by
  constructor
  · show (complexCalc i).total_raw
        - (complexCalc i).total_raw * (i.withdrawal / 100) = _
    ring
  · simp [chartComponents, complexCalc]
    ring

/-- Witness for C4 at a 5% withdrawal. -/
theorem claim_C4_linear_composition_witness :
    (chartComponents ⟨20000, 10000, 5000, 50, 65, 22, 5, 60000, 20000, 10000,
        0, 0.40⟩).sum
      = (complexCalc ⟨20000, 10000, 5000, 50, 65, 22, 5, 60000, 20000, 10000,
          0, 0.40⟩).gross_total := by
  exact (claim_C4_linear_composition
    ⟨20000, 10000, 5000, 50, 65, 22, 5, 60000, 20000, 10000, 0, 0.40⟩
    (by norm_num) (by norm_num)).2

/-- C5: For both genders, for every row of the generated table (ages 40-60)
and every retirement-age column in {60, 65, 68}, the multiplier value is
non-negative (the generator floors negative values at zero), and for a fixed
gender and column the value is non-increasing as age increases. -/
theorem claim_C5_table_invariants (g : Gender) (retAge : ℕ) (r1 r2 : OgdenRow)
    (hret : retAge = 60 ∨ retAge = 65 ∨ retAge = 68)
    (h1 : r1 ∈ get_ogden_subset g) (h2 : r2 ∈ get_ogden_subset g)
    (hage : r1.age ≤ r2.age) :
    0 ≤ colValue r1 retAge ∧ colValue r2 retAge ≤ colValue r1 retAge := by
  obtain ⟨a1, ha1, rfl⟩ := List.mem_map.mp h1
  obtain ⟨a2, ha2, rfl⟩ := List.mem_map.mp h2
  simp only [age_clampRow_ogdenRawRow] at hage
  rw [colValue_clampRow, colValue_clampRow]
  exact ⟨le_max_left _ _,
    max_le_max le_rfl (colValue_raw_anti g retAge a1 a2 hage)⟩

/-- Witness for C5 on the male table, ages 40 and 60, retirement at 65. -/
theorem claim_C5_table_invariants_witness :
    0 ≤ colValue (clampRow (ogdenRawRow Gender.Male 40)) 65 ∧
    colValue (clampRow (ogdenRawRow Gender.Male 60)) 65
      ≤ colValue (clampRow (ogdenRawRow Gender.Male 40)) 65 := by
  exact claim_C5_table_invariants Gender.Male 65
    (clampRow (ogdenRawRow Gender.Male 40))
    (clampRow (ogdenRawRow Gender.Male 60))
    (Or.inr (Or.inl rfl))
    (List.mem_map.mpr ⟨40, (mem_ogdenAges 40).mpr ⟨le_refl 40, by norm_num⟩, rfl⟩)
    (List.mem_map.mpr ⟨60, (mem_ogdenAges 60).mpr ⟨by norm_num, le_refl 60⟩, rfl⟩)
    (by simp)

/-- C6: In Simple mode, for all inputs,
`annual_loss = gross_salary * (contribution_rate/100)` and
`net_total = annual_loss * period`; at gross_salary 30000, rate 5%,
period 1, tax rate 40% and zero allowance the results are net_total 1500,
taxable 1500 and gross_total 2500. -/
theorem claim_C6_simple_mode :
    (∀ s c p allow rate : ℚ,
      (simpleCalc s c p allow rate).annual_loss = s * (c / 100) ∧
      (simpleCalc s c p allow rate).net_total
        = (simpleCalc s c p allow rate).annual_loss * p) ∧
    (simpleCalc 30000 5 1 0 0.40).net_total = 1500 ∧
    (simpleCalc 30000 5 1 0 0.40).taxable = 1500 ∧
    (simpleCalc 30000 5 1 0 0.40).gross_total = 2500 := by
  refine ⟨fun s c p allow rate => ⟨rfl, rfl⟩, ?_, ?_, ?_⟩
  · simp [simpleCalc]; norm_num
  · simp [simpleCalc]; norm_num
  · simp [simpleCalc]; norm_num

/-- C7: Table lookup with an age outside the generated 40-60 band returns a
"not found" signal (`none`, with `found_in_table = false` and the
`auto_multiplier` fallback value 0 handed to the manual entry widget) rather
than an exception; inside the band it returns the exact-match entry for that
age and retirement-age column, with no interpolation. -/
theorem claim_C7_lookup (g : Gender) (age retAge : ℕ) :
    ((age < 40 ∨ 60 < age) →
      lookupMultiplier g age retAge = none ∧
      found_in_table g age retAge = false ∧
      auto_multiplier g age retAge = 0) ∧
    (40 ≤ age → age ≤ 60 →
      lookupMultiplier g age retAge = some (ogdenVal g retAge age) ∧
      found_in_table g age retAge = true) := by
  constructor
  · intro h
    have hnone := lookup_out_of_band g age retAge h
    exact ⟨hnone, by simp [found_in_table, hnone],
      by simp [auto_multiplier, hnone]⟩
  · intro h1 h2
    have hsome := lookup_in_band g age retAge h1 h2
    exact ⟨hsome, by simp [found_in_table, hsome]⟩

/-- Witness for C7: a miss at age 39 and an exact hit at age 50. -/
theorem claim_C7_lookup_witness :
    lookupMultiplier Gender.Male 39 65 = none ∧
    lookupMultiplier Gender.Male 50 65 = some (ogdenVal Gender.Male 65 50) := by
  exact ⟨((claim_C7_lookup Gender.Male 39 65).1 (Or.inl (by norm_num))).1,
    ((claim_C7_lookup Gender.Male 50 65).2 (by norm_num) (by norm_num)).1⟩

/-- C8: Every tax rate offered by the sidebar selectbox is strictly below 1,
so the gross-up division `taxable / (1 - tax_rate)` can never be executed
with a zero denominator: tax_rate = 1 is unenterable. -/
theorem claim_C8_tax_rate_guard (rate : ℚ) (h : rate ∈ taxRateOptions) :
    rate < 1 ∧ rate ≠ 1 ∧ 1 - rate ≠ 0 := by
  fin_cases h <;> norm_num [taxRateOptions]

/-- Witness for C8 at the default 40% rate. -/
theorem claim_C8_tax_rate_guard_witness :
    (0.40 : ℚ) < 1 ∧ (0.40 : ℚ) ≠ 1 ∧ 1 - (0.40 : ℚ) ≠ 0 := by
  exact claim_C8_tax_rate_guard 0.40 (by norm_num [taxRateOptions])

/-- C9: For every report payload and both methods, `generate_report` reaches
the `add_runner` call on the disclaimer paragraph — a method the paragraph
object does not expose — before any method-dependent step, so it raises an
`AttributeError` on every invocation and never returns a document. -/
theorem claim_C9_report_always_errors (payload : ReportPayload)
    (method : String) :
    generate_report payload method
      = Except.error "AttributeError: add_runner" := rfl

/-- C10: Whenever the net total is at most the tax-free allowance (including
every negative net total against a non-negative allowance), the gross-up is
the identity in both modes: zero taxable portion, gross total equal to net
total, and zero tax element. -/
theorem claim_C10_grossup_identity (s c p allow rate : ℚ) (i : ComplexInputs)
    (hs : (simpleCalc s c p allow rate).net_total ≤ allow)
    (hc : (complexCalc i).net_total ≤ i.tax_free_remaining) :
    ((simpleCalc s c p allow rate).taxable = 0 ∧
      (simpleCalc s c p allow rate).gross_total
        = (simpleCalc s c p allow rate).net_total) ∧
    ((complexCalc i).taxable = 0 ∧
      (complexCalc i).gross_total = (complexCalc i).net_total ∧
      (complexCalc i).tax_element = 0) := by
  refine ⟨⟨max_eq_left (sub_nonpos.mpr hs),
           grossUp_id_of_le _ allow rate hs⟩,
          max_eq_left (sub_nonpos.mpr hc), ?_, ?_⟩
  · exact grossUp_id_of_le _ i.tax_free_remaining i.tax_rate hc
  · exact sub_eq_zero_of_eq
      (grossUp_id_of_le _ i.tax_free_remaining i.tax_rate hc)

/-- Witness for C10: a negative Simple-mode net total against a zero
allowance, and an all-zero Complex-mode award. -/
theorem claim_C10_grossup_identity_witness :
    (simpleCalc (-100) 5 1 0 0.40).gross_total
      = (simpleCalc (-100) 5 1 0 0.40).net_total ∧
    (complexCalc ⟨0, 0, 0, 50, 65, 0, 0, 0, 0, 0, 0, 0.40⟩).tax_element = 0 := by
  have h := claim_C10_grossup_identity (-100) 5 1 0 0.40
    ⟨0, 0, 0, 50, 65, 0, 0, 0, 0, 0, 0, 0.40⟩
    (by norm_num [simpleCalc])
    (by norm_num [complexCalc])
  exact ⟨h.1.2, h.2.2.2⟩

end PensionLoss
